import Mathlib

/-!
Shallow embedding of the topology-construction core of the
`copilot-agent-playground` repository: the CDK application entry point
(`infrastructure/bin`, src/unnamed/part_000), the four stacks
(SharedStack, FrontendStack, CicdStack, MonitoringStack in
`infrastructure/lib/stacks`), and the LoggingConstruct
(src/unnamed/part_002).  In the specification's terminology the stacks are
the nodes `edge+storage`, `application-runtime`, `delivery-pipeline`
and `observability` of a deployment topology; stages `dev`, `staging`
and `prod` are the tiers `development`, `staging` and `production`.
-/

namespace NextjsPlayground

/-- Stage identifiers accepted by the app entry point:
`const validStages = ['dev', 'staging', 'prod']`. -/
def validStages : List String := ["dev", "staging", "prod"]

/-- CDK context as consulted by the app entry point through
`app.node.tryGetContext`.  The entry point reads only the keys `stage`
and `alertEmail`; the two flag fields are carried so that properties can
quantify over them, and the builder never inspects them, exactly as the
source never calls `tryGetContext('enableDelivery')` or
`tryGetContext('enableMonitoring')`. -/
structure Context where
  stage : Option String
  alertEmail : Option String
  enableDelivery : Option Bool
  enableMonitoring : Option Bool
deriving DecidableEq

/-- Process environment read by the entry point:
`CDK_DEFAULT_ACCOUNT` and `CDK_DEFAULT_REGION` (defaulted to
`us-east-1`). -/
structure Env where
  account : String
  region : Option String
deriving DecidableEq

/-- Region resolution: `process.env.CDK_DEFAULT_REGION || 'us-east-1'`. -/
def resolvedRegion (e : Env) : String := e.region.getD "us-east-1"

/-- Stage resolution from the context:
`const stage = app.node.tryGetContext('stage') || 'dev'`.  JavaScript
`||` treats both an absent value and the empty string as falsy, so both
default to `dev`. -/
def effectiveStage (ctx : Context) : String :=
  match ctx.stage with
  | none => "dev"
  | some s => if s = "" then "dev" else s

/-- The four stack nodes, in the specification's terminology:
`edgeStorage` is SharedStack, `applicationRuntime` is FrontendStack,
`deliveryPipeline` is CicdStack, `observability` is MonitoringStack. -/
inductive NodeId
  | edgeStorage
  | applicationRuntime
  | deliveryPipeline
  | observability
deriving DecidableEq, Fintype

/-- Resource-handle families exchanged between stacks. -/
inductive HandleKind
  | edgeCache
  | objectStore
  | computeFunction
  | httpEndpoint
  | keyValueTable
  | pipelineHandle
  | alertChannel
deriving DecidableEq, Fintype

/-- Handle kinds a stack consumes from previously constructed stacks, read
off the constructor props in the source: FrontendStack receives
`sharedStack` and uses `sharedStack.assetsBucket`; MonitoringStack
receives `lambdaFunction`, `api`, `sessionTable` and `distribution`;
SharedStack and CicdStack consume no cross-stack resource handles. -/
def requiredInputs : NodeId → List HandleKind
  | .edgeStorage => []
  | .applicationRuntime => [.objectStore]
  | .deliveryPipeline => []
  | .observability => [.computeFunction, .httpEndpoint, .keyValueTable, .edgeCache]

/-- Handle kinds a stack produces, read off the public readonly fields of
each stack class: SharedStack exposes `assetsBucket` and `distribution`;
FrontendStack exposes `nextjsFunction`, `api` and `sessionTable`;
CicdStack exposes `pipeline` (and its artifact bucket); MonitoringStack
exposes `alertTopic` (and the dashboard). -/
def declaredOutputs : NodeId → List HandleKind
  | .edgeStorage => [.objectStore, .edgeCache]
  | .applicationRuntime => [.computeFunction, .httpEndpoint, .keyValueTable]
  | .deliveryPipeline => [.pipelineHandle]
  | .observability => [.alertChannel]

/-- SharedStack (src/unnamed/part_003): S3 assets bucket plus CloudFront
distribution. -/
structure SharedStack where
  stage : String
  assetsBucketName : String
  priceClass : String
deriving DecidableEq

/-- SharedStack construction: the bucket is named
`nextjs-playground-assets-STAGE-ACCOUNT` and the distribution uses
price class 100. -/
def mkSharedStack (env : Env) (stage : String) : SharedStack :=
  { stage := stage
    assetsBucketName := "nextjs-playground-assets-" ++ stage ++ "-" ++ env.account
    priceClass := "PriceClass_100" }

/-- FrontendStack (second unit of
src/infrastructure/lib/stacks/cicd-stack.ts): session table, Next.js
Lambda function and API Gateway. -/
structure FrontendStack where
  stage : String
  sessionTableName : String
  functionName : String
  nodeEnv : String
  apiName : String
deriving DecidableEq

/-- FrontendStack construction: resource names are derived from the stage
and `NODE_ENV` is `production` exactly for stage `prod`. -/
def mkFrontendStack (stage : String) : FrontendStack :=
  { stage := stage
    sessionTableName := "nextjs-playground-sessions-" ++ stage
    functionName := "nextjs-playground-" ++ stage
    nodeEnv := if stage = "prod" then "production" else "development"
    apiName := "nextjs-playground-api-" ++ stage }

/-- CicdStack (first unit of
src/infrastructure/lib/stacks/cicd-stack.ts): artifact bucket, deploy
project and pipeline. -/
structure CicdStack where
  stage : String
  artifactBucketName : String
  pipelineName : String
  githubBranch : String
  hasManualApproval : Bool
deriving DecidableEq

/-- CicdStack construction as instantiated by the app entry point: the
branch is `master` for `prod` and `develop` otherwise, and a manual
approval stage is appended only for `prod`. -/
def mkCicdStack (env : Env) (stage : String) : CicdStack :=
  { stage := stage
    artifactBucketName := "nextjs-playground-artifacts-" ++ stage ++ "-" ++ env.account
    pipelineName := "nextjs-playground-" ++ stage
    githubBranch := if stage = "prod" then "master" else "develop"
    hasManualApproval := stage = "prod" }

/-- A CloudWatch alarm definition from MonitoringStack, the
specification's `ThresholdRule`: an alarm name, the metric, the handle
kind the metric is measured on, the numeric threshold and the number of
evaluation periods (5-minute windows). -/
structure ThresholdRule where
  name : String
  metric : String
  target : HandleKind
  threshold : Nat
  evaluationPeriods : Nat
deriving DecidableEq

/-- The eight alarms of MonitoringStack in declaration order, with the
thresholds and evaluation periods written literally in the source:
Lambda errors 5/2, Lambda duration 10000 ms/3, Lambda throttles 1/1,
API 5XX errors 10/2, API latency 5000 ms/3, DynamoDB read throttles 1/1,
DynamoDB write throttles 1/1, CloudFront 4xx error rate 10 percent/2. -/
def monitoringAlarms (stage : String) : List ThresholdRule :=
  [ { name := "nextjs-playground-lambda-errors-" ++ stage
      metric := "Errors", target := .computeFunction
      threshold := 5, evaluationPeriods := 2 }
  , { name := "nextjs-playground-lambda-duration-" ++ stage
      metric := "Duration", target := .computeFunction
      threshold := 10000, evaluationPeriods := 3 }
  , { name := "nextjs-playground-lambda-throttles-" ++ stage
      metric := "Throttles", target := .computeFunction
      threshold := 1, evaluationPeriods := 1 }
  , { name := "nextjs-playground-api-errors-" ++ stage
      metric := "5XXError", target := .httpEndpoint
      threshold := 10, evaluationPeriods := 2 }
  , { name := "nextjs-playground-api-latency-" ++ stage
      metric := "Latency", target := .httpEndpoint
      threshold := 5000, evaluationPeriods := 3 }
  , { name := "nextjs-playground-dynamo-read-throttles-" ++ stage
      metric := "ThrottledRequests", target := .keyValueTable
      threshold := 1, evaluationPeriods := 1 }
  , { name := "nextjs-playground-dynamo-write-throttles-" ++ stage
      metric := "ThrottledRequests", target := .keyValueTable
      threshold := 1, evaluationPeriods := 1 }
  , { name := "nextjs-playground-cloudfront-errors-" ++ stage
      metric := "4xxErrorRate", target := .edgeCache
      threshold := 10, evaluationPeriods := 2 } ]

/-- One notification entry of the cost budget. -/
structure BudgetNotification where
  notificationType : String
  comparisonOperator : String
  threshold : Nat
  thresholdType : String
  subscribers : List String
deriving DecidableEq

/-- The cost budget of MonitoringStack, the specification's
`BudgetPolicy`. -/
structure BudgetPolicy where
  budgetName : String
  limitAmount : Nat
  limitUnit : String
  timeUnit : String
  budgetType : String
  notifications : List BudgetNotification
deriving DecidableEq

/-- The `CfnBudget` created by MonitoringStack, guarded by
`if (props.stage === 'prod')`: a 100 USD monthly cost budget with an
ACTUAL/GREATER_THAN/80-percent notification and a
FORECASTED/GREATER_THAN/100-percent notification, each subscribed to
`alertEmail` when that prop is present. -/
def monitoringBudget (stage : String) (alertEmail : Option String) :
    Option BudgetPolicy :=
  if stage = "prod" then
    some
      { budgetName := "nextjs-playground-" ++ stage ++ "-budget"
        limitAmount := 100
        limitUnit := "USD"
        timeUnit := "MONTHLY"
        budgetType := "COST"
        notifications :=
          [ { notificationType := "ACTUAL"
              comparisonOperator := "GREATER_THAN"
              threshold := 80
              thresholdType := "PERCENTAGE"
              subscribers := alertEmail.elim [] (fun e => [e]) }
          , { notificationType := "FORECASTED"
              comparisonOperator := "GREATER_THAN"
              threshold := 100
              thresholdType := "PERCENTAGE"
              subscribers := alertEmail.elim [] (fun e => [e]) } ] }
  else none

/-- MonitoringStack (third unit of
src/infrastructure/lib/stacks/cicd-stack.ts): SNS topic, optional email
subscription, the eight alarms, the dashboard and the optional cost
budget. -/
structure MonitoringStack where
  stage : String
  topicName : String
  emailSubscription : Option String
  alarms : List ThresholdRule
  dashboardName : String
  budget : Option BudgetPolicy
deriving DecidableEq

/-- MonitoringStack construction as instantiated by the app entry point. -/
def mkMonitoringStack (stage : String) (alertEmail : Option String) :
    MonitoringStack :=
  { stage := stage
    topicName := "nextjs-playground-alerts-" ++ stage
    emailSubscription := alertEmail
    alarms := monitoringAlarms stage
    dashboardName := "nextjs-playground-" ++ stage
    budget := monitoringBudget stage alertEmail }

/-- The built topology: the stage, the constructed stack nodes in
construction order, the explicit `addDependency` wiring as
(dependent, prerequisite) pairs, the stacks themselves, and the
`alertEmail` context value the caller supplied. -/
structure Topology where
  stage : String
  nodes : List NodeId
  dependencies : List (NodeId × NodeId)
  shared : SharedStack
  frontend : FrontendStack
  cicd : Option CicdStack
  monitoring : Option MonitoringStack
  alertEmailFlag : Option String
deriving DecidableEq

/-- Topology construction after stage validation succeeds, following the
app entry point line by line: SharedStack first, FrontendStack second
with `frontendStack.addDependency(sharedStack)`; then, under the single
guard `stage === 'staging' || stage === 'prod'`, CicdStack with
`cicdStack.addDependency(frontendStack)` and MonitoringStack with
`monitoringStack.addDependency(frontendStack)` and
`monitoringStack.addDependency(sharedStack)`. -/
def mkTopology (env : Env) (stage : String) (alertEmail : Option String) :
    Topology :=
  if stage = "staging" ∨ stage = "prod" then
    { stage := stage
      nodes := [.edgeStorage, .applicationRuntime, .deliveryPipeline, .observability]
      dependencies :=
        [ (.applicationRuntime, .edgeStorage)
        , (.deliveryPipeline, .applicationRuntime)
        , (.observability, .applicationRuntime)
        , (.observability, .edgeStorage) ]
      shared := mkSharedStack env stage
      frontend := mkFrontendStack stage
      cicd := some (mkCicdStack env stage)
      monitoring := some (mkMonitoringStack stage alertEmail)
      alertEmailFlag := alertEmail }
  else
    { stage := stage
      nodes := [.edgeStorage, .applicationRuntime]
      dependencies := [(.applicationRuntime, .edgeStorage)]
      shared := mkSharedStack env stage
      frontend := mkFrontendStack stage
      cicd := none
      monitoring := none
      alertEmailFlag := alertEmail }

/-- The error message of the stage guard:
`Invalid stage: STAGE. Valid stages are: dev, staging, prod`. -/
def invalidStageMessage (stage : String) : String :=
  "Invalid stage: " ++ stage ++ ". Valid stages are: " ++
    String.intercalate ", " validStages

/-- The app entry point (src/unnamed/part_000): resolve the stage from
context, throw if it is not one of the valid stages (before any stack is
constructed), otherwise construct the stacks.  A thrown `Error` is
modelled as `Except.error` carrying the message, so no partial topology
exists on the error path. -/
def buildApp (env : Env) (ctx : Context) : Except String Topology :=
  let stage := effectiveStage ctx
  if stage ∈ validStages then
    Except.ok (mkTopology env stage ctx.alertEmail)
  else
    Except.error (invalidStageMessage stage)

/-- The derived monitoring configuration of a topology: the threshold
rules and budget of the observability node when it was constructed,
nothing otherwise. -/
structure MonitoringConfig where
  rules : List ThresholdRule
  budget : Option BudgetPolicy
deriving DecidableEq

/-- Monitoring derivation read off the built topology. -/
def deriveMonitoring (t : Topology) : MonitoringConfig :=
  match t.monitoring with
  | some m => { rules := m.alarms, budget := m.budget }
  | none => { rules := [], budget := none }

/-- The numeric parameters of a threshold rule: its absolute threshold
value and its evaluation-window count. -/
def numericParams (r : ThresholdRule) : Nat × Nat :=
  (r.threshold, r.evaluationPeriods)

/-- All handle kinds produced by the included nodes of a topology. -/
def producedKinds (t : Topology) : List HandleKind :=
  t.nodes.flatMap declaredOutputs

/-- Resource-handle identifiers of a topology, in construction order. -/
def handleIds (t : Topology) : List String :=
  [t.shared.assetsBucketName, t.frontend.functionName, t.frontend.apiName,
    t.frontend.sessionTableName] ++
  (t.cicd.elim [] (fun c => [c.artifactBucketName, c.pipelineName])) ++
  (t.monitoring.elim [] (fun m => [m.topicName, m.dashboardName]))

/-- A derived dependency edge from node `a` to node `b`: `b` declares a
required input whose kind is produced by `a`. -/
def derivedEdge (a b : NodeId) : Bool :=
  (declaredOutputs a).any (fun k => (requiredInputs b).contains k)

/-- Human-readable node identifiers used in validation issues. -/
def nodeName : NodeId → String
  | .edgeStorage => "edge+storage"
  | .applicationRuntime => "application-runtime"
  | .deliveryPipeline => "delivery-pipeline"
  | .observability => "observability"

/-- Kinds of issues reported by the validation pass. -/
inductive IssueKind
  | missingDependency
  | duplicateOutput
  | danglingRuleTarget
  | budgetOutsideProduction
  | unusedConfiguration
deriving DecidableEq

/-- A validation issue: its kind, whether it is fatal, the node it
concerns and a detail string. -/
structure ValidationIssue where
  kind : IssueKind
  fatal : Bool
  nodeId : String
  detail : String
deriving DecidableEq

/-- Modelled from the spec: the repository contains no validation pass
(no `validate` function exists anywhere in the source; the only check is
the stage guard in the app entry point), so this definition follows
specification section 4.3 word for word.  Checks, in order: (a) every
required input of every included node is produced by some other included
node; (b) no duplicate output kind across included nodes; (c) every
threshold rule's target handle resolves among the produced kinds; (d) a
budget may be present only when the tier is production; (e) if the
`alertEmail` flag is set but the observability node was excluded, a
non-fatal `UnusedConfiguration` warning is emitted rather than an
error.  Issues from (a) to (d) are fatal; (e) is a warning. -/
def validate (t : Topology) : List ValidationIssue :=
  (t.nodes.flatMap (fun n =>
    (requiredInputs n).filterMap (fun k =>
      if (t.nodes.filter (fun m => m ≠ n)).any
          (fun m => (declaredOutputs m).contains k) then
        none
      else
        some { kind := .missingDependency, fatal := true,
               nodeId := nodeName n, detail := "unsatisfied required input" }))) ++
  (if (t.nodes.flatMap declaredOutputs).Nodup then []
   else [{ kind := .duplicateOutput, fatal := true,
           nodeId := "", detail := "duplicate output kind" }]) ++
  ((deriveMonitoring t).rules.filterMap (fun r =>
    if (producedKinds t).contains r.target then none
    else some { kind := .danglingRuleTarget, fatal := true,
                nodeId := nodeName .observability, detail := r.name })) ++
  (match (deriveMonitoring t).budget with
   | some _ =>
     if t.stage = "prod" then []
     else [{ kind := .budgetOutsideProduction, fatal := true,
             nodeId := nodeName .observability, detail := t.stage }]
   | none => []) ++
  (if t.alertEmailFlag.isSome ∧ NodeId.observability ∉ t.nodes then
     [{ kind := .unusedConfiguration, fatal := false,
        nodeId := nodeName .observability,
        detail := "alertEmail set but observability excluded" }]
   else [])

/-- Number of UnusedConfiguration warnings in an issue list. -/
def unusedWarningCount (issues : List ValidationIssue) : Nat :=
  issues.countP (fun i => decide (i.kind = IssueKind.unusedConfiguration))

/-- Number of fatal issues in an issue list. -/
def fatalIssueCount (issues : List ValidationIssue) : Nat :=
  issues.countP (fun i => i.fatal)

/-- The four fixed log-analysis categories of the LoggingConstruct
(src/unnamed/part_002): error extraction, latency percentile
aggregation, request-volume bucketing, and cold-start latency
aggregation. -/
inductive QueryCategory
  | errorAnalysis
  | performanceAnalysis
  | requestVolume
  | coldStartAnalysis
deriving DecidableEq

/-- A CloudWatch Logs Insights query definition: name, category, query
text and the log groups it is bound to. -/
structure QueryDefinition where
  name : String
  category : QueryCategory
  queryString : String
  logGroups : List String
deriving DecidableEq

/-- Props of the LoggingConstruct. -/
structure LoggingProps where
  stage : String
  applicationName : String
  enableStructuredLogging : Option Bool
  enableLogInsights : Option Bool
  enableMetricFilters : Option Bool
deriving DecidableEq

/-- The central application log group of the LoggingConstruct, the
log handle of the application runtime:
`/aws/application/APPLICATIONNAME-STAGE`. -/
def centralLogGroupName (p : LoggingProps) : String :=
  "/aws/application/" ++ p.applicationName ++ "-" ++ p.stage

/-- The Log Insights query definitions pushed by the LoggingConstruct
under `if (props.enableLogInsights !== false)`, in declaration order;
the query text is the source text with newlines normalized to single
spaces.  All four are bound to the central log group. -/
def logInsightsQueries (p : LoggingProps) : List QueryDefinition :=
  if p.enableLogInsights = some false then []
  else
    [ { name := p.applicationName ++ "-" ++ p.stage ++ "-errors"
        category := .errorAnalysis
        queryString := "fields @timestamp, @message, @requestId | filter @message like /ERROR/ | sort @timestamp desc | limit 100"
        logGroups := [centralLogGroupName p] }
    , { name := p.applicationName ++ "-" ++ p.stage ++ "-performance"
        category := .performanceAnalysis
        queryString := "fields @timestamp, @duration, @billedDuration, @memorySize, @maxMemoryUsed | filter @type = \"REPORT\" | stats avg(@duration), max(@duration), min(@duration) by bin(5m) | sort @timestamp desc"
        logGroups := [centralLogGroupName p] }
    , { name := p.applicationName ++ "-" ++ p.stage ++ "-requests"
        category := .requestVolume
        queryString := "fields @timestamp, @requestId | filter @type = \"START\" | stats count() by bin(1h) | sort @timestamp desc"
        logGroups := [centralLogGroupName p] }
    , { name := p.applicationName ++ "-" ++ p.stage ++ "-coldstarts"
        category := .coldStartAnalysis
        queryString := "fields @timestamp, @message, @initDuration | filter @type = \"REPORT\" and @initDuration > 0 | stats count() as coldStarts, avg(@initDuration) as avgInitDuration by bin(1h) | sort @timestamp desc"
        logGroups := [centralLogGroupName p] } ]

/-- Construction position of a node in a topology. -/
def nodeIndex (t : Topology) (n : NodeId) : Nat :=
  t.nodes.indexOf n

/-- A rank function on nodes witnessing that the derived dependency
graph has a topological order. -/
def nodeRank : NodeId → Nat
  | .edgeStorage => 0
  | .applicationRuntime => 1
  | .deliveryPipeline => 2
  | .observability => 3

/-- Node list of a build result; empty on the error path. -/
def nodesOf (r : Except String Topology) : List NodeId :=
  match r with
  | .ok t => t.nodes
  | .error _ => []

/-- Numeric rule parameters of a build result; empty on the error path. -/
def ruleParamsOf (r : Except String Topology) : List (Nat × Nat) :=
  match r with
  | .ok t => (deriveMonitoring t).rules.map numericParams
  | .error _ => []

/-- Validation issues of a build result; empty on the error path. -/
def issuesOf (r : Except String Topology) : List ValidationIssue :=
  match r with
  | .ok t => validate t
  | .error _ => []

/-- A concrete environment used to instantiate the theorems. -/
def env0 : Env := { account := "123456789012", region := none }

/-- Development context with both feature flags explicitly disabled, as
in Scenario A of the specification. -/
def ctxScenarioA : Context :=
  { stage := some "dev", alertEmail := none,
    enableDelivery := some false, enableMonitoring := some false }

/-- Production context with both flags enabled and an alert email, as in
Scenario B of the specification. -/
def ctxScenarioB : Context :=
  { stage := some "prod", alertEmail := some "a@b.com",
    enableDelivery := some true, enableMonitoring := some true }

/-- Staging context with monitoring explicitly disabled and an alert
email, as in Scenario C of the specification. -/
def ctxScenarioC : Context :=
  { stage := some "staging", alertEmail := some "a@b.com",
    enableDelivery := some true, enableMonitoring := some false }

/-- Context carrying an invalid stage identifier. -/
def ctxInvalid : Context :=
  { stage := some "qa", alertEmail := none,
    enableDelivery := none, enableMonitoring := none }

/-- Context with no stage supplied at all. -/
def ctxNoStage : Context :=
  { stage := none, alertEmail := none,
    enableDelivery := none, enableMonitoring := none }

/-- Context whose stage is the empty string. -/
def ctxEmptyStage : Context :=
  { stage := some "", alertEmail := none,
    enableDelivery := none, enableMonitoring := none }

end NextjsPlayground

deriving instance DecidableEq for Except

namespace NextjsPlayground

/-- The development topology built from Scenario A's arguments. -/
def topoA : Topology := mkTopology env0 "dev" none

/-- The production topology built from Scenario B's arguments. -/
def topoB : Topology := mkTopology env0 "prod" (some "a@b.com")

/-- The staging topology built from Scenario C's arguments. -/
def topoC : Topology := mkTopology env0 "staging" (some "a@b.com")

/-- Context for a development build that also supplies an alert email. -/
def ctxDevAlert : Context :=
  { stage := some "dev", alertEmail := some "a@b.com",
    enableDelivery := none, enableMonitoring := none }

/-- The development topology built with an alert email supplied. -/
def topoDevAlert : Topology := mkTopology env0 "dev" (some "a@b.com")

/-- A successful build returns exactly the topology constructed from the
resolved stage, and only for a valid resolved stage. -/
theorem buildApp_ok_iff (env : Env) (ctx : Context) (t : Topology) :
    buildApp env ctx = Except.ok t ↔
      effectiveStage ctx ∈ validStages ∧
        t = mkTopology env (effectiveStage ctx) ctx.alertEmail := by
  unfold buildApp
  by_cases h : effectiveStage ctx ∈ validStages
  · simp [h, eq_comm]
  · simp [h]

/-- A valid stage is one of the three enumerated identifiers. -/
theorem stage_trichotomy {s : String} (h : s ∈ validStages) :
    s = "dev" ∨ s = "staging" ∨ s = "prod" := by
  simpa [validStages] using h

/-- The built topology records the stage it was built for. -/
theorem mkTopology_stage (env : Env) (s : String) (ae : Option String) :
    (mkTopology env s ae).stage = s := by
  unfold mkTopology
  split <;> rfl

/-- Node list of the built topology by stage. -/
theorem mkTopology_nodes (env : Env) (s : String) (ae : Option String) :
    (mkTopology env s ae).nodes =
      if s = "staging" ∨ s = "prod" then
        [NodeId.edgeStorage, NodeId.applicationRuntime,
          NodeId.deliveryPipeline, NodeId.observability]
      else [NodeId.edgeStorage, NodeId.applicationRuntime] := by
  unfold mkTopology
  split <;> simp_all

/-- Monitoring stack of the built topology by stage. -/
theorem mkTopology_monitoring (env : Env) (s : String) (ae : Option String) :
    (mkTopology env s ae).monitoring =
      if s = "staging" ∨ s = "prod" then some (mkMonitoringStack s ae)
      else none := by
  unfold mkTopology
  split <;> simp_all

/-- The built topology records the alertEmail context value. -/
theorem mkTopology_alertEmailFlag (env : Env) (s : String) (ae : Option String) :
    (mkTopology env s ae).alertEmailFlag = ae := by
  unfold mkTopology
  split <;> rfl

/-- Explicit addDependency wiring of the built topology by stage. -/
theorem mkTopology_dependencies (env : Env) (s : String) (ae : Option String) :
    (mkTopology env s ae).dependencies =
      if s = "staging" ∨ s = "prod" then
        [ (NodeId.applicationRuntime, NodeId.edgeStorage)
        , (NodeId.deliveryPipeline, NodeId.applicationRuntime)
        , (NodeId.observability, NodeId.applicationRuntime)
        , (NodeId.observability, NodeId.edgeStorage) ]
      else [(NodeId.applicationRuntime, NodeId.edgeStorage)] := by
  unfold mkTopology
  split <;> simp_all

/-- Every derived dependency edge increases the node rank, so the rank
function is a topological order of the derived graph. -/
theorem derivedEdge_rank_lt :
    ∀ a b : NodeId, derivedEdge a b = true → nodeRank a < nodeRank b := by
  decide

/-- Rank increases along any nonempty chain of derived dependency
edges. -/
theorem transGen_derivedEdge_rank_lt (a b : NodeId)
    (h : Relation.TransGen (fun x y => derivedEdge x y = true) a b) :
    nodeRank a < nodeRank b := by
  induction h with
  | single h => exact derivedEdge_rank_lt _ _ h
  | tail _ h ih => exact lt_trans ih (derivedEdge_rank_lt _ _ h)

/-- C1: for every successfully built topology, the delivery-pipeline and
observability nodes are present iff the tier is staging or production;
for the development tier — whatever the flag fields of the context hold,
since they are quantified arbitrarily here — the topology contains
exactly the edge+storage and application-runtime nodes, the derived
threshold-rule set is empty and no budget policy is derived. -/
theorem c1_delivery_and_observability_present_iff_tier
    (env : Env) (ctx : Context) (t : Topology)
    (h : buildApp env ctx = Except.ok t) :
    (NodeId.deliveryPipeline ∈ t.nodes ↔
      (t.stage = "staging" ∨ t.stage = "prod")) ∧
    (NodeId.observability ∈ t.nodes ↔
      (t.stage = "staging" ∨ t.stage = "prod")) ∧
    (t.stage = "dev" →
      t.nodes = [NodeId.edgeStorage, NodeId.applicationRuntime] ∧
      (deriveMonitoring t).rules = [] ∧ (deriveMonitoring t).budget = none) := by
  obtain ⟨hv, ht⟩ := (buildApp_ok_iff env ctx t).mp h
  rcases stage_trichotomy hv with h1 | h1 | h1 <;> rw [h1] at ht <;> subst ht <;>
    simp [mkTopology, deriveMonitoring]

/-- Witness for C1 at Scenario A's concrete arguments. -/
theorem c1_witness :
    (NodeId.deliveryPipeline ∈ topoA.nodes ↔
      (topoA.stage = "staging" ∨ topoA.stage = "prod")) ∧
    (NodeId.observability ∈ topoA.nodes ↔
      (topoA.stage = "staging" ∨ topoA.stage = "prod")) ∧
    (topoA.stage = "dev" →
      topoA.nodes = [NodeId.edgeStorage, NodeId.applicationRuntime] ∧
      (deriveMonitoring topoA).rules = [] ∧
      (deriveMonitoring topoA).budget = none) :=
  c1_delivery_and_observability_present_iff_tier env0 ctxScenarioA topoA
    (by decide)

/-- C2: a budget policy is derived iff the tier is production, and it is
the 100 USD monthly cost budget with exactly two alert notifications:
80 percent on actual spend and 100 percent on forecasted overrun, both
with the GREATER_THAN comparison. -/
theorem c2_budget_policy_iff_production (env : Env) (ctx : Context) (t : Topology)
    (h : buildApp env ctx = Except.ok t) :
    ((deriveMonitoring t).budget.isSome ↔ t.stage = "prod") ∧
    (∀ b, (deriveMonitoring t).budget = some b →
      b.limitAmount = 100 ∧ b.limitUnit = "USD" ∧ b.timeUnit = "MONTHLY" ∧
      b.budgetType = "COST" ∧
      b.notifications.map
          (fun n => (n.notificationType, n.comparisonOperator, n.threshold)) =
        [("ACTUAL", "GREATER_THAN", 80), ("FORECASTED", "GREATER_THAN", 100)]) := by
  obtain ⟨hv, ht⟩ := (buildApp_ok_iff env ctx t).mp h
  rcases stage_trichotomy hv with h1 | h1 | h1 <;> rw [h1] at ht <;> subst ht <;>
    simp [mkTopology, deriveMonitoring, mkMonitoringStack, monitoringBudget]

/-- Witness for C2 at Scenario B's concrete arguments. -/
theorem c2_witness :
    ((deriveMonitoring topoB).budget.isSome ↔ topoB.stage = "prod") ∧
    (∀ b, (deriveMonitoring topoB).budget = some b →
      b.limitAmount = 100 ∧ b.limitUnit = "USD" ∧ b.timeUnit = "MONTHLY" ∧
      b.budgetType = "COST" ∧
      b.notifications.map
          (fun n => (n.notificationType, n.comparisonOperator, n.threshold)) =
        [("ACTUAL", "GREATER_THAN", 80), ("FORECASTED", "GREATER_THAN", 100)]) :=
  c2_budget_policy_iff_production env0 ctxScenarioB topoB (by decide)

/-- C3 counterexample: building with Scenario C's arguments — staging
with enableMonitoring explicitly false — yields a topology that still
contains the observability node, because the app entry point never reads
the enableDelivery or enableMonitoring context keys; the claim asserts
observability would be excluded. -/
theorem c3_counterexample :
    nodesOf (buildApp env0 ctxScenarioC) =
      [NodeId.edgeStorage, NodeId.applicationRuntime,
        NodeId.deliveryPipeline, NodeId.observability] ∧
    NodeId.observability ∈ nodesOf (buildApp env0 ctxScenarioC) := by
  decide

/-- C3 amended: for tier staging or production the delivery-pipeline and
observability nodes are always included, regardless of the flag fields
of the context (which the builder never reads); in particular the
Scenario C build includes observability. -/
theorem c3_flags_ignored_nodes_always_included
    (env : Env) (ctx : Context) (t : Topology)
    (h : buildApp env ctx = Except.ok t)
    (hs : t.stage = "staging" ∨ t.stage = "prod") :
    NodeId.deliveryPipeline ∈ t.nodes ∧ NodeId.observability ∈ t.nodes := by
  obtain ⟨hv, ht⟩ := (buildApp_ok_iff env ctx t).mp h
  subst ht
  rw [mkTopology_stage] at hs
  simp [mkTopology_nodes, hs]

/-- Witness for the amended C3 at Scenario C's concrete arguments. -/
theorem c3_witness :
    NodeId.deliveryPipeline ∈ topoC.nodes ∧ NodeId.observability ∈ topoC.nodes :=
  c3_flags_ignored_nodes_always_included env0 ctxScenarioC topoC (by decide)
    (by decide)

/-- C4 counterexample: the development build derives no threshold rules
at all (it has no observability node), so no rule family has
development parameters to be strictly smaller than production ones; and
where rules do exist (staging, production) their numeric parameters
coincide, so nothing is tier-dependent. -/
theorem c4_counterexample :
    ruleParamsOf (buildApp env0 ctxScenarioA) = [] ∧
    ruleParamsOf (buildApp env0 (Context.mk (some "prod") none none none)) =
      [(5, 2), (10000, 3), (1, 1), (10, 2), (5000, 3), (1, 1), (1, 1), (10, 2)] ∧
    ruleParamsOf (buildApp env0 (Context.mk (some "staging") none none none)) =
      ruleParamsOf (buildApp env0 (Context.mk (some "prod") none none none)) := by
  decide

/-- C4 amended: the numeric parameters (threshold value and
evaluation-window count) of the derived threshold rules form one fixed
table that does not depend on the tier: every tier that produces rules
at all (staging and production) produces exactly the same eight
parameter pairs, and development produces none because its topology has
no observability node. -/
theorem c4_rule_parameters_tier_independent
    (env : Env) (ctx : Context) (t : Topology)
    (h : buildApp env ctx = Except.ok t) :
    (deriveMonitoring t).rules.map numericParams =
      if t.stage = "staging" ∨ t.stage = "prod" then
        [(5, 2), (10000, 3), (1, 1), (10, 2), (5000, 3), (1, 1), (1, 1), (10, 2)]
      else [] := by
  obtain ⟨hv, ht⟩ := (buildApp_ok_iff env ctx t).mp h
  rcases stage_trichotomy hv with h1 | h1 | h1 <;> rw [h1] at ht <;> subst ht <;>
    simp [mkTopology, deriveMonitoring, mkMonitoringStack, monitoringAlarms,
      numericParams]

/-- Witness for the amended C4 at Scenario B's concrete arguments. -/
theorem c4_witness :
    (deriveMonitoring topoB).rules.map numericParams =
      if topoB.stage = "staging" ∨ topoB.stage = "prod" then
        [(5, 2), (10000, 3), (1, 1), (10, 2), (5000, 3), (1, 1), (1, 1), (10, 2)]
      else [] :=
  c4_rule_parameters_tier_independent env0 ctxScenarioB topoB (by decide)

/-- C5 counterexample: validating the topology actually built from
Scenario C's arguments yields zero UnusedConfiguration warnings, not
exactly one, because the build ignores enableMonitoring and therefore
does include the observability node. -/
theorem c5_counterexample :
    unusedWarningCount (issuesOf (buildApp env0 ctxScenarioC)) = 0 ∧
    fatalIssueCount (issuesOf (buildApp env0 ctxScenarioC)) = 0 := by
  decide

/-- C5 amended: for every built topology, validate emits an
UnusedConfiguration warning — always non-fatal — exactly when the
alertEmail flag is set and the observability node was excluded, and
emits no fatal issue; under Scenario C's arguments observability is
included, so the warning count there is zero, while a development build
with alertEmail set gets exactly one warning. -/
theorem c5_unused_configuration_warning_iff
    (env : Env) (ctx : Context) (t : Topology)
    (h : buildApp env ctx = Except.ok t) :
    unusedWarningCount (validate t) =
      (if ctx.alertEmail.isSome ∧ NodeId.observability ∉ t.nodes then 1 else 0) ∧
    fatalIssueCount (validate t) = 0 ∧
    (∀ i ∈ validate t, i.kind = IssueKind.unusedConfiguration → i.fatal = false) := by
  obtain ⟨hv, ht⟩ := (buildApp_ok_iff env ctx t).mp h
  rcases stage_trichotomy hv with h1 | h1 | h1 <;> rw [h1] at ht <;> subst ht <;>
    cases hae : ctx.alertEmail <;>
      simp [mkTopology, validate, deriveMonitoring, mkMonitoringStack,
        monitoringAlarms, monitoringBudget, producedKinds, declaredOutputs,
        requiredInputs, hae, unusedWarningCount, fatalIssueCount, nodeName]

/-- Witness for the amended C5: a development build with alertEmail set
gets exactly one non-fatal UnusedConfiguration warning and no fatal
issue. -/
theorem c5_witness :
    unusedWarningCount (validate topoDevAlert) =
      (if ctxDevAlert.alertEmail.isSome ∧
          NodeId.observability ∉ topoDevAlert.nodes then 1 else 0) ∧
    fatalIssueCount (validate topoDevAlert) = 0 ∧
    (∀ i ∈ validate topoDevAlert,
      i.kind = IssueKind.unusedConfiguration → i.fatal = false) :=
  c5_unused_configuration_warning_iff env0 ctxDevAlert topoDevAlert (by decide)

/-- C6: every supplied, non-empty stage identifier outside
dev/staging/prod makes the build fail with the error message naming the
invalid stage and the valid stages, and since the stage guard runs
before any stack is instantiated the error carries no topology; the
three enumerated identifiers are accepted.  The empty string is not
treated as a supplied identifier: JavaScript falsiness folds it into the
absent-stage default covered by C10. -/
theorem c6_invalid_stage_rejected (env : Env) (ctx : Context) (s : String)
    (hst : ctx.stage = some s) (hne : s ≠ "") :
    (s ∉ validStages →
      buildApp env ctx = Except.error (invalidStageMessage s) ∧
      invalidStageMessage s =
        "Invalid stage: " ++ s ++ ". Valid stages are: dev, staging, prod") ∧
    (s ∈ validStages → ∃ t, buildApp env ctx = Except.ok t) := by
  have he : effectiveStage ctx = s := by simp [effectiveStage, hst, hne]
  constructor
  · intro hnot
    constructor
    · simp [buildApp, he, hnot]
    · have hmsg : String.intercalate ", " validStages = "dev, staging, prod" := by
        decide
      rw [invalidStageMessage, hmsg, String.append_assoc]
      rfl
  · intro hin
    refine ⟨mkTopology env s ctx.alertEmail, ?_⟩
    simp [buildApp, he, hin]

/-- Witness for C6 at the concrete invalid stage identifier `qa`. -/
theorem c6_witness :
    ("qa" ∉ validStages →
      buildApp env0 ctxInvalid = Except.error (invalidStageMessage "qa") ∧
      invalidStageMessage "qa" =
        "Invalid stage: " ++ "qa" ++ ". Valid stages are: dev, staging, prod") ∧
    ("qa" ∈ validStages → ∃ t, buildApp env0 ctxInvalid = Except.ok t) :=
  c6_invalid_stage_rejected env0 ctxInvalid "qa" (by decide) (by decide)

/-- C7: building twice with identical environment and context yields
topologies with equal node order, equal resource-handle identifiers and
equal derived monitoring configuration; construction is a pure function
of its arguments, with no randomness and no clock access. -/
theorem c7_build_deterministic (env : Env) (ctx : Context) (t₁ t₂ : Topology)
    (h₁ : buildApp env ctx = Except.ok t₁)
    (h₂ : buildApp env ctx = Except.ok t₂) :
    t₁.nodes = t₂.nodes ∧ handleIds t₁ = handleIds t₂ ∧
      deriveMonitoring t₁ = deriveMonitoring t₂ := by
  have ht : t₁ = t₂ := by
    rw [h₁] at h₂
    exact (Except.ok.injEq _ _ ▸ h₂ : t₁ = t₂)
  subst ht
  exact ⟨rfl, rfl, rfl⟩

/-- Witness for C7 at Scenario B's concrete arguments. -/
theorem c7_witness :
    topoB.nodes = topoB.nodes ∧ handleIds topoB = handleIds topoB ∧
      deriveMonitoring topoB = deriveMonitoring topoB :=
  c7_build_deterministic env0 ctxScenarioB topoB topoB (by decide) (by decide)

/-- C8: whenever log-insights derivation is not explicitly disabled, the
LoggingConstruct produces exactly one query definition per fixed
analysis category — error extraction, latency aggregation,
request-volume bucketing, cold-start latency aggregation — in that
order, each bound to the central application log group. -/
theorem c8_log_insights_queries_four_categories (p : LoggingProps)
    (h : p.enableLogInsights ≠ some false) :
    (logInsightsQueries p).map QueryDefinition.category =
      [QueryCategory.errorAnalysis, QueryCategory.performanceAnalysis,
        QueryCategory.requestVolume, QueryCategory.coldStartAnalysis] ∧
    (∀ q ∈ logInsightsQueries p, q.logGroups = [centralLogGroupName p]) := by
  unfold logInsightsQueries
  rw [if_neg h]
  constructor
  · rfl
  · intro q hq
    simp at hq
    rcases hq with h | h | h | h <;> subst h <;> rfl

/-- Witness for C8 at a concrete LoggingConstruct configuration. -/
theorem c8_witness :
    (logInsightsQueries (LoggingProps.mk "dev" "nextjs-playground" none none none)).map
        QueryDefinition.category =
      [QueryCategory.errorAnalysis, QueryCategory.performanceAnalysis,
        QueryCategory.requestVolume, QueryCategory.coldStartAnalysis] ∧
    (∀ q ∈ logInsightsQueries (LoggingProps.mk "dev" "nextjs-playground" none none none),
      q.logGroups =
        [centralLogGroupName (LoggingProps.mk "dev" "nextjs-playground" none none none)]) :=
  c8_log_insights_queries_four_categories
    (LoggingProps.mk "dev" "nextjs-playground" none none none) (by decide)

/-- C9: in every built topology the construction order is consistent
with the derived dependency graph — a node producing a handle kind that
another included node requires is constructed strictly earlier — and
with the explicit addDependency wiring, and the derived dependency
graph is acyclic. -/
theorem c9_construction_order_respects_dependencies
    (env : Env) (ctx : Context) (t : Topology)
    (h : buildApp env ctx = Except.ok t) :
    (∀ a b : NodeId, derivedEdge a b = true → a ∈ t.nodes → b ∈ t.nodes →
      nodeIndex t a < nodeIndex t b) ∧
    (∀ a b : NodeId, (a, b) ∈ t.dependencies → nodeIndex t b < nodeIndex t a) ∧
    (∀ n : NodeId, ¬ Relation.TransGen (fun x y => derivedEdge x y = true) n n) := by
  obtain ⟨hv, ht⟩ := (buildApp_ok_iff env ctx t).mp h
  refine ⟨?_, ?_, ?_⟩
  · rcases stage_trichotomy hv with h1 | h1 | h1 <;> rw [h1] at ht <;> subst ht <;>
      simp only [nodeIndex, mkTopology_nodes] <;> decide
  · rcases stage_trichotomy hv with h1 | h1 | h1 <;> rw [h1] at ht <;> subst ht <;>
      simp only [nodeIndex, mkTopology_nodes, mkTopology_dependencies] <;> decide
  · intro n hn
    exact absurd (transGen_derivedEdge_rank_lt n n hn) (lt_irrefl _)

/-- Witness for C9 at Scenario B's concrete arguments. -/
theorem c9_witness :
    (∀ a b : NodeId, derivedEdge a b = true → a ∈ topoB.nodes → b ∈ topoB.nodes →
      nodeIndex topoB a < nodeIndex topoB b) ∧
    (∀ a b : NodeId, (a, b) ∈ topoB.dependencies →
      nodeIndex topoB b < nodeIndex topoB a) ∧
    (∀ n : NodeId, ¬ Relation.TransGen (fun x y => derivedEdge x y = true) n n) :=
  c9_construction_order_respects_dependencies env0 ctxScenarioB topoB (by decide)

/-- C10: when no stage is supplied (absent, or the empty string, which
JavaScript's logical-or treats as absent), the build succeeds with the
development topology: exactly the edge+storage and application-runtime
nodes, no derived rules and no budget. -/
theorem c10_missing_stage_defaults_to_development (env : Env) (ctx : Context)
    (h : ctx.stage = none ∨ ctx.stage = some "") :
    buildApp env ctx = Except.ok (mkTopology env "dev" ctx.alertEmail) ∧
    (mkTopology env "dev" ctx.alertEmail).nodes =
      [NodeId.edgeStorage, NodeId.applicationRuntime] ∧
    deriveMonitoring (mkTopology env "dev" ctx.alertEmail) =
      { rules := [], budget := none } := by
  have he : effectiveStage ctx = "dev" := by
    rcases h with h | h <;> simp [effectiveStage, h]
  refine ⟨by simp [buildApp, he, validStages], ?_, ?_⟩ <;>
    simp [mkTopology, deriveMonitoring]

/-- Witness for C10 at the concrete context with no stage supplied. -/
theorem c10_witness :
    buildApp env0 ctxNoStage = Except.ok (mkTopology env0 "dev" ctxNoStage.alertEmail) ∧
    (mkTopology env0 "dev" ctxNoStage.alertEmail).nodes =
      [NodeId.edgeStorage, NodeId.applicationRuntime] ∧
    deriveMonitoring (mkTopology env0 "dev" ctxNoStage.alertEmail) =
      { rules := [], budget := none } :=
  c10_missing_stage_defaults_to_development env0 ctxNoStage (Or.inl rfl)

end NextjsPlayground
